import Mathlib

/-!
Verification of the pipeline-state builder layer (src/pipeline/mod.rs).

The file shallowly embeds the graphics and compute pipeline-state builders,
their descriptor assembly, the cache-blob methods and the flag/enum types.
Machine integers (u32, HRESULT) are modelled as Nat resp. Int; raw pointers
are modelled as Nat addresses; COM interface pointers are modelled as records
exposing exactly the methods the source calls on them.
-/

/-- A D3D blob (winapi ID3DBlob), modelled by the two accessors the source
calls on it: GetBufferPointer and GetBufferSize. -/
structure ID3DBlob where
  GetBufferPointer : Nat
  GetBufferSize : Nat
deriving Repr, DecidableEq

/-- A D3D12 pipeline-state COM object, modelled by the one method the source
calls on it: GetCachedBlob, returning an HRESULT together with the blob
written through the out-parameter. -/
structure ID3D12PipelineState where
  GetCachedBlob : Int × ID3DBlob
deriving Repr, DecidableEq

/-- Modelled from the spec: the error type of the missing error module
(src/error.rs is not under src/). Per spec sections 6 and 7, every failure
carries the native status code of the device call. -/
structure WinError where
  hresult : Int
deriving Repr, DecidableEq

/-- Modelled from the spec: WinError::from_hresult_or_ok of the missing error
module. Per spec section 6, status code 0 is the success sentinel: on 0 the
success continuation is evaluated and wrapped in Ok, otherwise a typed error
carrying the status is returned and the continuation is never run. -/
def WinError.from_hresult_or_ok {α : Type} (hr : Int) (f : Unit → α) :
    Except WinError α :=
  if hr = 0 then Except.ok (f ()) else Except.error ⟨hr⟩

/-- Modelled from the spec: a shader bytecode slot of the missing shader
module (src/shader.rs is not under src/). Per spec section 6 the provider
supplies an opaque (pointer, length) view of the bytecode buffer. -/
structure ShaderBytecode where
  ptr : Nat
  len : Nat
deriving Repr, DecidableEq

abbrev VsShaderBytecode := ShaderBytecode
abbrev PsShaderBytecode := ShaderBytecode
abbrev DsShaderBytecode := ShaderBytecode
abbrev HsShaderBytecode := ShaderBytecode
abbrev GsShaderBytecode := ShaderBytecode
abbrev CsShaderBytecode := ShaderBytecode

/-- The flat D3D12_SHADER_BYTECODE fragment: pointer and byte length. -/
structure D3D12_SHADER_BYTECODE where
  pShaderBytecode : Nat
  BytecodeLength : Nat
deriving Repr, DecidableEq

/-- Modelled from the spec: to_shader_bytecode of the missing shader module,
yielding the (pointer, length) view as the flat fragment. -/
def ShaderBytecode.to_shader_bytecode (s : ShaderBytecode) :
    D3D12_SHADER_BYTECODE :=
  ⟨s.ptr, s.len⟩

/-- The flat D3D12_CACHED_PIPELINE_STATE fragment. -/
structure D3D12_CACHED_PIPELINE_STATE where
  pCachedBlob : Nat
  CachedBlobSizeInBytes : Nat
deriving Repr, DecidableEq

/-- Modelled from the spec: DXGI formats of the missing format module are
native u32 enumeration values. -/
abbrev DxgiFormat := Nat

/-- Modelled from the spec: the unknown DXGI format constant of the missing
format module (native value 0). -/
def DXGI_FORMAT_UNKNOWN : DxgiFormat := 0

/-- Modelled from the spec: the 24-bit-depth/8-bit-stencil DXGI format
constant of the missing format module (native value 45). -/
def DXGI_FORMAT_D24_UNORM_S8_UINT : DxgiFormat := 45

/-- Modelled from the spec: rootsig::RootSig of the missing rootsig module, a
reference-counted root-signature object; the source only reads its raw
pointer (self.rootsig.ptr.as_mut_ptr()), modelled as a Nat address. -/
structure RootSig where
  ptr : Nat
deriving Repr, DecidableEq

/-- Modelled from the spec: so::DescBuilder of the missing stream-output
module. Its build method produces the flat D3D12_STREAM_OUTPUT_DESC (whose
bit content is modelled opaquely as a Nat) together with the backing storage
the flat form points into. -/
structure SoDescBuilder where
  flatDesc : Nat
deriving Repr, DecidableEq

/-- Modelled from the spec: the (flat-struct, backing-storage) pair returned
by the stream-output sub-builder. -/
def SoDescBuilder.build (s : SoDescBuilder) : Nat × SoDescBuilder :=
  (s.flatDesc, s)

/-- Modelled from the spec: default stream-output sub-builder (empty). -/
def SoDescBuilder.default : SoDescBuilder := ⟨0⟩

/-- Modelled from the spec: blend::BlendDesc of the missing blend module, a
plain value struct reinterpreted bit-for-bit into the flat layout; its bit
content is modelled opaquely as a Nat. -/
structure BlendDesc where
  bits : Nat
deriving Repr, DecidableEq

/-- Modelled from the spec: documented default blend descriptor. -/
def BlendDesc.default : BlendDesc := ⟨0⟩

/-- Modelled from the spec: rasterizer::RasterizerDesc of the missing
rasterizer module, reinterpreted bit-for-bit; modelled opaquely as a Nat. -/
structure RasterizerDesc where
  bits : Nat
deriving Repr, DecidableEq

/-- Modelled from the spec: documented default rasterizer descriptor. -/
def RasterizerDesc.default : RasterizerDesc := ⟨0⟩

/-- Modelled from the spec: ds::DepthStencilDesc of the missing depth-stencil
module, reinterpreted bit-for-bit; modelled opaquely as a Nat. -/
structure DepthStencilDesc where
  bits : Nat
deriving Repr, DecidableEq

/-- Modelled from the spec: documented default depth-stencil descriptor. -/
def DepthStencilDesc.default : DepthStencilDesc := ⟨0⟩

/-- Modelled from the spec: ia::InputLayoutBuilder of the missing
input-assembly module: an ordered sequence of input-element descriptors
(each element modelled opaquely as a Nat); the source reads
elements.as_ptr() and elements.len(). -/
structure InputLayoutBuilder where
  elements : List Nat
deriving Repr, DecidableEq

/-- Modelled from the spec: default input layout (empty element list). -/
def InputLayoutBuilder.default : InputLayoutBuilder := ⟨[]⟩

/-- Modelled from the spec: ia::StripCutValue of the missing input-assembly
module, a closed enumeration reinterpreted into its native integer form. -/
inductive StripCutValue
  | DISABLED
  | FFFF
  | FFFFFFFF
deriving Repr, DecidableEq

/-- Native integer form of a strip-cut value (the transmute in build). -/
def StripCutValue.toNative : StripCutValue → Nat
  | .DISABLED => 0
  | .FFFF => 1
  | .FFFFFFFF => 2

/-- Modelled from the spec: default strip-cut value (disabled). -/
def StripCutValue.default : StripCutValue := .DISABLED

/-- Modelled from the spec: ia::PrimitiveTopologyType of the missing
input-assembly module, a closed enumeration reinterpreted into its native
integer form. -/
inductive PrimitiveTopologyType
  | UNDEFINED
  | POINT
  | LINE
  | TRIANGLE
  | PATCH
deriving Repr, DecidableEq

/-- Native integer form of a primitive topology type (the transmute in
build). -/
def PrimitiveTopologyType.toNative : PrimitiveTopologyType → Nat
  | .UNDEFINED => 0
  | .POINT => 1
  | .LINE => 2
  | .TRIANGLE => 3
  | .PATCH => 4

/-- Modelled from the spec: swapchain::SampleDesc of the missing swapchain
module (DXGI_SAMPLE_DESC), reinterpreted bit-for-bit. -/
structure DXGI_SAMPLE_DESC where
  Count : Nat
  Quality : Nat
deriving Repr, DecidableEq

abbrev SampleDesc := DXGI_SAMPLE_DESC

/-- Modelled from the spec: default sample description (one sample, quality
level zero). -/
def DXGI_SAMPLE_DESC.default : DXGI_SAMPLE_DESC := ⟨1, 0⟩

/-- PipelineStateFlags (src/pipeline/mod.rs lines 237-243): a bitflags u32
set with constants NONE = 0 and TOOL_DEBUG = 1. -/
structure PipelineStateFlags where
  bits : Nat
deriving Repr, DecidableEq

def PipelineStateFlags.NONE : PipelineStateFlags := ⟨0⟩

def PipelineStateFlags.TOOL_DEBUG : PipelineStateFlags := ⟨1⟩

/-- Default for PipelineStateFlags (src/pipeline/mod.rs lines 245-250). -/
def PipelineStateFlags.default : PipelineStateFlags := PipelineStateFlags.NONE

/-- ComparisonFunc (src/pipeline/mod.rs lines 252-265): declared through the
bitflags macro, so it is a struct wrapping a u32 bit set, with eight named
constants of native values 1 through 8. -/
structure ComparisonFunc where
  bits : Nat
deriving Repr, DecidableEq

def ComparisonFunc.NEVER : ComparisonFunc := ⟨1⟩

def ComparisonFunc.LESS : ComparisonFunc := ⟨2⟩

def ComparisonFunc.EQUAL : ComparisonFunc := ⟨3⟩

def ComparisonFunc.LESS_EQUAL : ComparisonFunc := ⟨4⟩

def ComparisonFunc.GREATER : ComparisonFunc := ⟨5⟩

def ComparisonFunc.NOT_EQUAL : ComparisonFunc := ⟨6⟩

def ComparisonFunc.GREATER_EQUAL : ComparisonFunc := ⟨7⟩

def ComparisonFunc.ALWAYS : ComparisonFunc := ⟨8⟩

/-- Generated by the bitflags macro: the empty set. -/
def ComparisonFunc.empty : ComparisonFunc := ⟨0⟩

/-- Generated by the bitflags macro: the union of every declared constant,
1 ||| 2 ||| 3 ||| 4 ||| 5 ||| 6 ||| 7 ||| 8 = 15. -/
def ComparisonFunc.all : ComparisonFunc := ⟨15⟩

/-- Generated by the bitflags macro: from_bits accepts exactly the bit
patterns contained in all (mask 15) and rejects the rest. -/
def ComparisonFunc.from_bits (bits : Nat) : Option ComparisonFunc :=
  if bits &&& 15 = bits then some ⟨bits⟩ else none

/-- Generated by the bitflags macro: the BitOr implementation, a public
bitwise union of the two operand bit sets. -/
def ComparisonFunc.bitor (a b : ComparisonFunc) : ComparisonFunc :=
  ⟨a.bits ||| b.bits⟩

/-- Generated by the bitflags macro: the BitAnd implementation, a public
bitwise intersection of the two operand bit sets. -/
def ComparisonFunc.bitand (a b : ComparisonFunc) : ComparisonFunc :=
  ⟨a.bits &&& b.bits⟩

/-- A graphics pipeline state object (src/pipeline/mod.rs lines 38-41): the
ComPtr wrapper is an identity on the underlying COM interface pointer. -/
structure GraphicsPipelineState where
  ptr : ID3D12PipelineState
deriving Repr, DecidableEq

/-- A graphics pipeline state cached blob (src/pipeline/mod.rs lines
51-54). -/
structure GraphicsPipelineStateCache where
  ptr : ID3DBlob
deriving Repr, DecidableEq

/-- A compute pipeline state object (src/pipeline/mod.rs lines 57-60). -/
structure ComputePipelineState where
  ptr : ID3D12PipelineState
deriving Repr, DecidableEq

/-- A compute pipeline state cached blob (src/pipeline/mod.rs lines
70-73). -/
structure ComputePipelineStateCache where
  ptr : ID3DBlob
deriving Repr, DecidableEq

/-- to_ffi_cache for the graphics cache blob (impl_cache_methods expansion,
src/pipeline/mod.rs lines 77-85): the flat cached-pipeline-state fragment is
exactly the buffer pointer and buffer size of the wrapped blob. -/
def GraphicsPipelineStateCache.to_ffi_cache (c : GraphicsPipelineStateCache) :
    D3D12_CACHED_PIPELINE_STATE :=
  ⟨c.ptr.GetBufferPointer, c.ptr.GetBufferSize⟩

/-- to_ffi_cache for the compute cache blob (impl_cache_methods expansion,
src/pipeline/mod.rs lines 77-85). -/
def ComputePipelineStateCache.to_ffi_cache (c : ComputePipelineStateCache) :
    D3D12_CACHED_PIPELINE_STATE :=
  ⟨c.ptr.GetBufferPointer, c.ptr.GetBufferSize⟩

/-- cached for the graphics pipeline state (impl_cache_methods expansion,
src/pipeline/mod.rs lines 87-99): call GetCachedBlob on the resource, then
map the HRESULT, wrapping the returned blob on success. -/
def GraphicsPipelineState.cached (s : GraphicsPipelineState) :
    Except WinError GraphicsPipelineStateCache :=
  let ret := s.ptr.GetCachedBlob
  WinError.from_hresult_or_ok ret.1 (fun _ => ⟨ret.2⟩)

/-- cached for the compute pipeline state (impl_cache_methods expansion,
src/pipeline/mod.rs lines 87-99). -/
def ComputePipelineState.cached (s : ComputePipelineState) :
    Except WinError ComputePipelineStateCache :=
  let ret := s.ptr.GetCachedBlob
  WinError.from_hresult_or_ok ret.1 (fun _ => ⟨ret.2⟩)

/-- The flat D3D12_INPUT_LAYOUT_DESC fragment: a pointer to the element
sequence (modelled as the pointed-to list itself) and the element count. -/
structure D3D12_INPUT_LAYOUT_DESC where
  pInputElementDescs : List Nat
  NumElements : Nat
deriving Repr, DecidableEq

/-- The flat D3D12_GRAPHICS_PIPELINE_STATE_DESC consumed by the device
creation capability; field names and order follow the native layout used in
build (src/pipeline/mod.rs lines 158-180). -/
structure D3D12_GRAPHICS_PIPELINE_STATE_DESC where
  pRootSignature : Nat
  VS : D3D12_SHADER_BYTECODE
  PS : D3D12_SHADER_BYTECODE
  DS : D3D12_SHADER_BYTECODE
  HS : D3D12_SHADER_BYTECODE
  GS : D3D12_SHADER_BYTECODE
  StreamOutput : Nat
  BlendState : Nat
  SampleMask : Nat
  RasterizerState : Nat
  DepthStencilState : Nat
  InputLayout : D3D12_INPUT_LAYOUT_DESC
  IBStripCutValue : Nat
  PrimitiveTopologyType : Nat
  NumRenderTargets : Nat
  RTVFormats : Fin 8 → DxgiFormat
  DSVFormat : DxgiFormat
  SampleDesc : DXGI_SAMPLE_DESC
  NodeMask : Nat
  CachedPSO : D3D12_CACHED_PIPELINE_STATE
  Flags : Nat

/-- The all-zero graphics descriptor produced by mem::zeroed(): every scalar
and pointer field is zero, the element pointer is null (empty). -/
def D3D12_GRAPHICS_PIPELINE_STATE_DESC.zeroed :
    D3D12_GRAPHICS_PIPELINE_STATE_DESC :=
  { pRootSignature := 0
    VS := ⟨0, 0⟩
    PS := ⟨0, 0⟩
    DS := ⟨0, 0⟩
    HS := ⟨0, 0⟩
    GS := ⟨0, 0⟩
    StreamOutput := 0
    BlendState := 0
    SampleMask := 0
    RasterizerState := 0
    DepthStencilState := 0
    InputLayout := ⟨[], 0⟩
    IBStripCutValue := 0
    PrimitiveTopologyType := 0
    NumRenderTargets := 0
    RTVFormats := fun _ => 0
    DSVFormat := 0
    SampleDesc := ⟨0, 0⟩
    NodeMask := 0
    CachedPSO := ⟨0, 0⟩
    Flags := 0 }

/-- The flat D3D12_COMPUTE_PIPELINE_STATE_DESC consumed by the device
creation capability (src/pipeline/mod.rs lines 218-223). -/
structure D3D12_COMPUTE_PIPELINE_STATE_DESC where
  pRootSignature : Nat
  CS : D3D12_SHADER_BYTECODE
  NodeMask : Nat
  CachedPSO : D3D12_CACHED_PIPELINE_STATE
  Flags : Nat
deriving Repr, DecidableEq

/-- The all-zero compute descriptor produced by mem::zeroed(). -/
def D3D12_COMPUTE_PIPELINE_STATE_DESC.zeroed :
    D3D12_COMPUTE_PIPELINE_STATE_DESC :=
  { pRootSignature := 0
    CS := ⟨0, 0⟩
    NodeMask := 0
    CachedPSO := ⟨0, 0⟩
    Flags := 0 }

/-- The device creation capability (the two methods of device::Device the
source calls): each takes a flat descriptor and returns an HRESULT together
with the resource written through the out-parameter. -/
structure Device where
  CreateGraphicsPipelineState :
    D3D12_GRAPHICS_PIPELINE_STATE_DESC → Int × ID3D12PipelineState
  CreateComputePipelineState :
    D3D12_COMPUTE_PIPELINE_STATE_DESC → Int × ID3D12PipelineState

/-- One observable call made to the device capability during a build. -/
inductive DeviceCall
  | graphics (d : D3D12_GRAPHICS_PIPELINE_STATE_DESC)
  | compute (d : D3D12_COMPUTE_PIPELINE_STATE_DESC)

/-- Graphics pso builder (src/pipeline/mod.rs lines 107-130): public
configuration fields, names as in the source. -/
structure GraphicsPipelineStateBuilder where
  rootsig : RootSig
  vs : Option VsShaderBytecode
  ps : Option PsShaderBytecode
  ds : Option DsShaderBytecode
  hs : Option HsShaderBytecode
  gs : Option GsShaderBytecode
  stream_output : SoDescBuilder
  blend_state : BlendDesc
  sample_mask : Nat
  rasterizer_state : RasterizerDesc
  depth_stencil_state : DepthStencilDesc
  input_layout : InputLayoutBuilder
  strip_cut_value : StripCutValue
  primitive_topology_type : PrimitiveTopologyType
  num_render_targets : Nat
  rtv_formats : Fin 8 → DxgiFormat
  dsv_format : DxgiFormat
  sample_desc : DXGI_SAMPLE_DESC
  node_mask : Nat
  cache : Option GraphicsPipelineStateCache
  flags : PipelineStateFlags

/-- GraphicsPipelineStateBuilder::new (src/pipeline/mod.rs lines 132-154):
documented defaults. -/
def GraphicsPipelineStateBuilder.new (root_signature : RootSig) :
    GraphicsPipelineStateBuilder :=
  { rootsig := root_signature
    vs := none, ps := none, ds := none, hs := none, gs := none
    stream_output := SoDescBuilder.default
    blend_state := BlendDesc.default
    sample_mask := 4294967295
    rasterizer_state := RasterizerDesc.default
    depth_stencil_state := DepthStencilDesc.default
    input_layout := InputLayoutBuilder.default
    strip_cut_value := StripCutValue.default
    primitive_topology_type := PrimitiveTopologyType.TRIANGLE
    num_render_targets := 1
    rtv_formats := fun _ => DXGI_FORMAT_UNKNOWN
    dsv_format := DXGI_FORMAT_D24_UNORM_S8_UINT
    sample_desc := DXGI_SAMPLE_DESC.default
    node_mask := 0
    cache := none
    flags := PipelineStateFlags.NONE }

/-- The conditional field write of build: a present optional overwrites the
zero-initialized field with its view, an absent one leaves it untouched. -/
def optionView {α β : Type} (f : α → β) (z : β) : Option α → β
  | some x => f x
  | none => z

/-- Descriptor assembly performed by GraphicsPipelineStateBuilder::build
(src/pipeline/mod.rs lines 158-180): start from the zeroed descriptor, then
write each field; an absent optional (shader stage, cache hint) leaves the
zeroed field untouched; transmutes are bit-identities on the modelled bit
content. -/
def GraphicsPipelineStateBuilder.assembleDesc
    (b : GraphicsPipelineStateBuilder) : D3D12_GRAPHICS_PIPELINE_STATE_DESC :=
  let d0 := D3D12_GRAPHICS_PIPELINE_STATE_DESC.zeroed
  { d0 with
    pRootSignature := b.rootsig.ptr
    VS := optionView ShaderBytecode.to_shader_bytecode d0.VS b.vs
    PS := optionView ShaderBytecode.to_shader_bytecode d0.PS b.ps
    DS := optionView ShaderBytecode.to_shader_bytecode d0.DS b.ds
    HS := optionView ShaderBytecode.to_shader_bytecode d0.HS b.hs
    GS := optionView ShaderBytecode.to_shader_bytecode d0.GS b.gs
    StreamOutput := (b.stream_output.build).1
    BlendState := b.blend_state.bits
    SampleMask := b.sample_mask
    RasterizerState := b.rasterizer_state.bits
    DepthStencilState := b.depth_stencil_state.bits
    InputLayout := ⟨b.input_layout.elements, b.input_layout.elements.length⟩
    IBStripCutValue := b.strip_cut_value.toNative
    PrimitiveTopologyType := b.primitive_topology_type.toNative
    NumRenderTargets := b.num_render_targets
    RTVFormats := b.rtv_formats
    DSVFormat := b.dsv_format
    SampleDesc := b.sample_desc
    NodeMask := b.node_mask
    CachedPSO :=
      optionView GraphicsPipelineStateCache.to_ffi_cache d0.CachedPSO b.cache
    Flags := b.flags.bits }

/-- GraphicsPipelineStateBuilder::build (src/pipeline/mod.rs lines 156-191):
assemble the flat descriptor, invoke the device creation capability once
with it, and map the HRESULT; alongside the result the embedding records the
list of device calls the run performs. -/
def GraphicsPipelineStateBuilder.build (b : GraphicsPipelineStateBuilder)
    (device : Device) :
    Except WinError GraphicsPipelineState × List DeviceCall :=
  let desc := b.assembleDesc
  let ret := device.CreateGraphicsPipelineState desc
  (WinError.from_hresult_or_ok ret.1 (fun _ => ⟨ret.2⟩),
   [DeviceCall.graphics desc])

/-- Compute pso builder (src/pipeline/mod.rs lines 194-202). -/
structure ComputePipelineStateBuilder where
  rootsig : RootSig
  cs : Option CsShaderBytecode
  node_mask : Nat
  cache : Option ComputePipelineStateCache
  flags : PipelineStateFlags

/-- ComputePipelineStateBuilder::new (src/pipeline/mod.rs lines 204-214). -/
def ComputePipelineStateBuilder.new (root_signature : RootSig) :
    ComputePipelineStateBuilder :=
  { rootsig := root_signature
    cs := none
    node_mask := 0
    cache := none
    flags := PipelineStateFlags.NONE }

/-- Descriptor assembly performed by ComputePipelineStateBuilder::build
(src/pipeline/mod.rs lines 218-223). -/
def ComputePipelineStateBuilder.assembleDesc
    (b : ComputePipelineStateBuilder) : D3D12_COMPUTE_PIPELINE_STATE_DESC :=
  let d0 := D3D12_COMPUTE_PIPELINE_STATE_DESC.zeroed
  { d0 with
    pRootSignature := b.rootsig.ptr
    CS := optionView ShaderBytecode.to_shader_bytecode d0.CS b.cs
    NodeMask := b.node_mask
    CachedPSO :=
      optionView ComputePipelineStateCache.to_ffi_cache d0.CachedPSO b.cache
    Flags := b.flags.bits }

/-- ComputePipelineStateBuilder::build (src/pipeline/mod.rs lines
216-234). -/
def ComputePipelineStateBuilder.build (b : ComputePipelineStateBuilder)
    (device : Device) :
    Except WinError ComputePipelineState × List DeviceCall :=
  let desc := b.assembleDesc
  let ret := device.CreateComputePipelineState desc
  (WinError.from_hresult_or_ok ret.1 (fun _ => ⟨ret.2⟩),
   [DeviceCall.compute desc])

/-!
Theorems: one per claim, in claim order, with witnesses where a statement
carries hypotheses.
-/

/-- C2: for every root-signature reference, GraphicsPipelineStateBuilder::new
yields the documented defaults: sample_mask all-bits-set, one render target
with every render-target format unknown, dsv_format the
24-bit-depth/8-bit-stencil format, triangle topology, NONE flags, all five
shader-stage slots absent, cache absent. -/
theorem graphics_builder_new_defaults (rs : RootSig) :
    (GraphicsPipelineStateBuilder.new rs).sample_mask = 4294967295 ∧
    (GraphicsPipelineStateBuilder.new rs).num_render_targets = 1 ∧
    (∀ i : Fin 8,
      (GraphicsPipelineStateBuilder.new rs).rtv_formats i =
        DXGI_FORMAT_UNKNOWN) ∧
    (GraphicsPipelineStateBuilder.new rs).dsv_format =
      DXGI_FORMAT_D24_UNORM_S8_UINT ∧
    (GraphicsPipelineStateBuilder.new rs).primitive_topology_type =
      PrimitiveTopologyType.TRIANGLE ∧
    (GraphicsPipelineStateBuilder.new rs).flags = PipelineStateFlags.NONE ∧
    (GraphicsPipelineStateBuilder.new rs).vs = none ∧
    (GraphicsPipelineStateBuilder.new rs).ps = none ∧
    (GraphicsPipelineStateBuilder.new rs).ds = none ∧
    (GraphicsPipelineStateBuilder.new rs).hs = none ∧
    (GraphicsPipelineStateBuilder.new rs).gs = none ∧
    (GraphicsPipelineStateBuilder.new rs).cache = none :=
  ⟨rfl, rfl, fun _ => rfl, rfl, rfl, rfl, rfl, rfl, rfl, rfl, rfl, rfl⟩

/-- C3: a builder fresh from new, given a minimal vertex+pixel shader set,
builds without panicking and hands the device a descriptor with one render
target, all-ones sample mask, triangle topology and NONE flags; in general
the descriptor's SampleMask, NumRenderTargets, NodeMask, topology and flags
equal the builder's corresponding configuration fields. -/
theorem graphics_build_desc_matches_config (rs : RootSig)
    (v : VsShaderBytecode) (p : PsShaderBytecode) (dev : Device) :
    (({ GraphicsPipelineStateBuilder.new rs with
          vs := some v, ps := some p } :
        GraphicsPipelineStateBuilder).build dev).2 =
      [DeviceCall.graphics
        ({ GraphicsPipelineStateBuilder.new rs with
            vs := some v, ps := some p } :
          GraphicsPipelineStateBuilder).assembleDesc] ∧
    ({ GraphicsPipelineStateBuilder.new rs with
        vs := some v, ps := some p } :
      GraphicsPipelineStateBuilder).assembleDesc.NumRenderTargets = 1 ∧
    ({ GraphicsPipelineStateBuilder.new rs with
        vs := some v, ps := some p } :
      GraphicsPipelineStateBuilder).assembleDesc.SampleMask = 4294967295 ∧
    ({ GraphicsPipelineStateBuilder.new rs with
        vs := some v, ps := some p } :
      GraphicsPipelineStateBuilder).assembleDesc.PrimitiveTopologyType =
      PrimitiveTopologyType.TRIANGLE.toNative ∧
    ({ GraphicsPipelineStateBuilder.new rs with
        vs := some v, ps := some p } :
      GraphicsPipelineStateBuilder).assembleDesc.Flags =
      PipelineStateFlags.NONE.bits ∧
    ∀ b : GraphicsPipelineStateBuilder,
      b.assembleDesc.SampleMask = b.sample_mask ∧
      b.assembleDesc.NumRenderTargets = b.num_render_targets ∧
      b.assembleDesc.NodeMask = b.node_mask ∧
      b.assembleDesc.PrimitiveTopologyType =
        b.primitive_topology_type.toNative ∧
      b.assembleDesc.Flags = b.flags.bits :=
  ⟨rfl, rfl, rfl, rfl, rfl, fun _ => ⟨rfl, rfl, rfl, rfl, rfl⟩⟩

/-- C4: every shader-stage slot left as none contributes the zeroed
bytecode fragment (null pointer, zero length) to the assembled descriptor,
for each of the five graphics stages and the compute stage. -/
theorem absent_stage_zeroed (b : GraphicsPipelineStateBuilder)
    (cb : ComputePipelineStateBuilder) :
    (b.vs = none → b.assembleDesc.VS = ⟨0, 0⟩) ∧
    (b.ps = none → b.assembleDesc.PS = ⟨0, 0⟩) ∧
    (b.ds = none → b.assembleDesc.DS = ⟨0, 0⟩) ∧
    (b.hs = none → b.assembleDesc.HS = ⟨0, 0⟩) ∧
    (b.gs = none → b.assembleDesc.GS = ⟨0, 0⟩) ∧
    (cb.cs = none → cb.assembleDesc.CS = ⟨0, 0⟩) := by
  refine ⟨fun h => ?_, fun h => ?_, fun h => ?_, fun h => ?_, fun h => ?_,
    fun h => ?_⟩ <;>
    simp [GraphicsPipelineStateBuilder.assembleDesc,
      ComputePipelineStateBuilder.assembleDesc, optionView,
      D3D12_GRAPHICS_PIPELINE_STATE_DESC.zeroed,
      D3D12_COMPUTE_PIPELINE_STATE_DESC.zeroed, h]

/-- Witness for C4: on the default builders every stage is absent and every
corresponding descriptor field is the zeroed fragment. -/
theorem absent_stage_zeroed_witness :
    (GraphicsPipelineStateBuilder.new ⟨0⟩).assembleDesc.VS = ⟨0, 0⟩ ∧
    (GraphicsPipelineStateBuilder.new ⟨0⟩).assembleDesc.PS = ⟨0, 0⟩ ∧
    (GraphicsPipelineStateBuilder.new ⟨0⟩).assembleDesc.DS = ⟨0, 0⟩ ∧
    (GraphicsPipelineStateBuilder.new ⟨0⟩).assembleDesc.HS = ⟨0, 0⟩ ∧
    (GraphicsPipelineStateBuilder.new ⟨0⟩).assembleDesc.GS = ⟨0, 0⟩ ∧
    (ComputePipelineStateBuilder.new ⟨0⟩).assembleDesc.CS = ⟨0, 0⟩ :=
  ⟨(absent_stage_zeroed (GraphicsPipelineStateBuilder.new ⟨0⟩)
      (ComputePipelineStateBuilder.new ⟨0⟩)).1 rfl,
   (absent_stage_zeroed (GraphicsPipelineStateBuilder.new ⟨0⟩)
      (ComputePipelineStateBuilder.new ⟨0⟩)).2.1 rfl,
   (absent_stage_zeroed (GraphicsPipelineStateBuilder.new ⟨0⟩)
      (ComputePipelineStateBuilder.new ⟨0⟩)).2.2.1 rfl,
   (absent_stage_zeroed (GraphicsPipelineStateBuilder.new ⟨0⟩)
      (ComputePipelineStateBuilder.new ⟨0⟩)).2.2.2.1 rfl,
   (absent_stage_zeroed (GraphicsPipelineStateBuilder.new ⟨0⟩)
      (ComputePipelineStateBuilder.new ⟨0⟩)).2.2.2.2.1 rfl,
   (absent_stage_zeroed (GraphicsPipelineStateBuilder.new ⟨0⟩)
      (ComputePipelineStateBuilder.new ⟨0⟩)).2.2.2.2.2 rfl⟩

/-- C5: to_ffi_cache is the exact (pointer, length) pass-through of the
wrapped blob, and during assembly CachedPSO equals that pair when a cache
hint is present and is the zeroed pair when it is absent. -/
theorem cache_hint_passthrough (c : GraphicsPipelineStateCache)
    (cc : ComputePipelineStateCache) (b : GraphicsPipelineStateBuilder)
    (cb : ComputePipelineStateBuilder) :
    c.to_ffi_cache = ⟨c.ptr.GetBufferPointer, c.ptr.GetBufferSize⟩ ∧
    cc.to_ffi_cache = ⟨cc.ptr.GetBufferPointer, cc.ptr.GetBufferSize⟩ ∧
    (b.cache = some c → b.assembleDesc.CachedPSO = c.to_ffi_cache) ∧
    (b.cache = none → b.assembleDesc.CachedPSO = ⟨0, 0⟩) ∧
    (cb.cache = some cc → cb.assembleDesc.CachedPSO = cc.to_ffi_cache) ∧
    (cb.cache = none → cb.assembleDesc.CachedPSO = ⟨0, 0⟩) := by
  refine ⟨rfl, rfl, fun h => ?_, fun h => ?_, fun h => ?_, fun h => ?_⟩ <;>
    simp [GraphicsPipelineStateBuilder.assembleDesc,
      ComputePipelineStateBuilder.assembleDesc, optionView,
      D3D12_GRAPHICS_PIPELINE_STATE_DESC.zeroed,
      D3D12_COMPUTE_PIPELINE_STATE_DESC.zeroed, h]

/-- Witness for C5: with a concrete blob at pointer 5 of size 7, the present
cache hint is passed through and the absent hint is zeroed, on both builder
kinds. -/
theorem cache_hint_passthrough_witness :
    ({ GraphicsPipelineStateBuilder.new ⟨0⟩ with
        cache := some ⟨⟨5, 7⟩⟩ } :
      GraphicsPipelineStateBuilder).assembleDesc.CachedPSO =
      (⟨⟨5, 7⟩⟩ : GraphicsPipelineStateCache).to_ffi_cache ∧
    (GraphicsPipelineStateBuilder.new ⟨0⟩).assembleDesc.CachedPSO =
      ⟨0, 0⟩ ∧
    ({ ComputePipelineStateBuilder.new ⟨0⟩ with
        cache := some ⟨⟨5, 7⟩⟩ } :
      ComputePipelineStateBuilder).assembleDesc.CachedPSO =
      (⟨⟨5, 7⟩⟩ : ComputePipelineStateCache).to_ffi_cache ∧
    (ComputePipelineStateBuilder.new ⟨0⟩).assembleDesc.CachedPSO =
      ⟨0, 0⟩ :=
  ⟨(cache_hint_passthrough ⟨⟨5, 7⟩⟩ ⟨⟨5, 7⟩⟩
      { GraphicsPipelineStateBuilder.new ⟨0⟩ with cache := some ⟨⟨5, 7⟩⟩ }
      (ComputePipelineStateBuilder.new ⟨0⟩)).2.2.1 rfl,
   (cache_hint_passthrough ⟨⟨5, 7⟩⟩ ⟨⟨5, 7⟩⟩
      (GraphicsPipelineStateBuilder.new ⟨0⟩)
      (ComputePipelineStateBuilder.new ⟨0⟩)).2.2.2.1 rfl,
   (cache_hint_passthrough ⟨⟨5, 7⟩⟩ ⟨⟨5, 7⟩⟩
      (GraphicsPipelineStateBuilder.new ⟨0⟩)
      { ComputePipelineStateBuilder.new ⟨0⟩ with
          cache := some ⟨⟨5, 7⟩⟩ }).2.2.2.2.1 rfl,
   (cache_hint_passthrough ⟨⟨5, 7⟩⟩ ⟨⟨5, 7⟩⟩
      (GraphicsPipelineStateBuilder.new ⟨0⟩)
      (ComputePipelineStateBuilder.new ⟨0⟩)).2.2.2.2.2 rfl⟩

/-- C7: num_render_targets = 8 is accepted (the field takes the value and a
build still performs its single device call), and descriptor assembly copies
exactly the eight entries of the rtv_formats table, independently of the
value of num_render_targets. -/
theorem rtv_formats_bounded_copy (rs : RootSig) (dev : Device) :
    ({ GraphicsPipelineStateBuilder.new rs with num_render_targets := 8 } :
      GraphicsPipelineStateBuilder).num_render_targets = 8 ∧
    (({ GraphicsPipelineStateBuilder.new rs with num_render_targets := 8 } :
        GraphicsPipelineStateBuilder).build dev).2.length = 1 ∧
    (∀ (b : GraphicsPipelineStateBuilder) (n : Nat),
      ({ b with num_render_targets := n } :
        GraphicsPipelineStateBuilder).assembleDesc.RTVFormats =
        b.rtv_formats) ∧
    ∀ b : GraphicsPipelineStateBuilder,
      b.assembleDesc.RTVFormats = b.rtv_formats :=
  ⟨rfl, rfl, fun _ _ => rfl, fun _ => rfl⟩

/-- C1: for both builder kinds, build returns Ok wrapping the resource the
device produced exactly when the device call reports the success status, and
returns the typed error carrying the device status exactly otherwise; there
is no third outcome. -/
theorem build_ok_iff_device_success (b : GraphicsPipelineStateBuilder)
    (cb : ComputePipelineStateBuilder) (dev : Device) :
    ((b.build dev).1 =
        Except.ok ⟨(dev.CreateGraphicsPipelineState b.assembleDesc).2⟩ ↔
      (dev.CreateGraphicsPipelineState b.assembleDesc).1 = 0) ∧
    ((b.build dev).1 =
        Except.error ⟨(dev.CreateGraphicsPipelineState b.assembleDesc).1⟩ ↔
      ¬(dev.CreateGraphicsPipelineState b.assembleDesc).1 = 0) ∧
    ((cb.build dev).1 =
        Except.ok ⟨(dev.CreateComputePipelineState cb.assembleDesc).2⟩ ↔
      (dev.CreateComputePipelineState cb.assembleDesc).1 = 0) ∧
    ((cb.build dev).1 =
        Except.error ⟨(dev.CreateComputePipelineState cb.assembleDesc).1⟩ ↔
      ¬(dev.CreateComputePipelineState cb.assembleDesc).1 = 0) := by
  constructor
  · by_cases h : (dev.CreateGraphicsPipelineState b.assembleDesc).1 = 0 <;>
      simp [GraphicsPipelineStateBuilder.build, WinError.from_hresult_or_ok, h]
  constructor
  · by_cases h : (dev.CreateGraphicsPipelineState b.assembleDesc).1 = 0 <;>
      simp [GraphicsPipelineStateBuilder.build, WinError.from_hresult_or_ok, h]
  constructor
  · by_cases h : (dev.CreateComputePipelineState cb.assembleDesc).1 = 0 <;>
      simp [ComputePipelineStateBuilder.build, WinError.from_hresult_or_ok, h]
  · by_cases h : (dev.CreateComputePipelineState cb.assembleDesc).1 = 0 <;>
      simp [ComputePipelineStateBuilder.build, WinError.from_hresult_or_ok, h]

/-- C6: for both pipeline-state kinds, cached returns Ok wrapping the blob
reference the cache query produced exactly when the query status is the
success sentinel, and returns the typed error carrying the query status
exactly otherwise. -/
theorem cached_ok_iff_query_success (g : GraphicsPipelineState)
    (c : ComputePipelineState) :
    (g.cached = Except.ok ⟨g.ptr.GetCachedBlob.2⟩ ↔
      g.ptr.GetCachedBlob.1 = 0) ∧
    (g.cached = Except.error ⟨g.ptr.GetCachedBlob.1⟩ ↔
      ¬g.ptr.GetCachedBlob.1 = 0) ∧
    (c.cached = Except.ok ⟨c.ptr.GetCachedBlob.2⟩ ↔
      c.ptr.GetCachedBlob.1 = 0) ∧
    (c.cached = Except.error ⟨c.ptr.GetCachedBlob.1⟩ ↔
      ¬c.ptr.GetCachedBlob.1 = 0) := by
  constructor
  · by_cases h : g.ptr.GetCachedBlob.1 = 0 <;>
      simp [GraphicsPipelineState.cached, WinError.from_hresult_or_ok, h]
  constructor
  · by_cases h : g.ptr.GetCachedBlob.1 = 0 <;>
      simp [GraphicsPipelineState.cached, WinError.from_hresult_or_ok, h]
  constructor
  · by_cases h : c.ptr.GetCachedBlob.1 = 0 <;>
      simp [ComputePipelineState.cached, WinError.from_hresult_or_ok, h]
  · by_cases h : c.ptr.GetCachedBlob.1 = 0 <;>
      simp [ComputePipelineState.cached, WinError.from_hresult_or_ok, h]

/-- C8: build performs no validation and makes exactly one device call for
every configuration (both builder kinds); a compute builder with no shader
still calls the device, with the zeroed compute-shader field, and a device
rejection surfaces as the typed creation error. -/
theorem build_single_unconditional_device_call
    (b : GraphicsPipelineStateBuilder) (cb : ComputePipelineStateBuilder)
    (rs : RootSig) (nm : Nat) (cache : Option ComputePipelineStateCache)
    (fl : PipelineStateFlags) (dev : Device) :
    (b.build dev).2 = [DeviceCall.graphics b.assembleDesc] ∧
    (cb.build dev).2 = [DeviceCall.compute cb.assembleDesc] ∧
    (ComputePipelineStateBuilder.assembleDesc ⟨rs, none, nm, cache, fl⟩).CS =
      ⟨0, 0⟩ ∧
    ((ComputePipelineStateBuilder.build ⟨rs, none, nm, cache, fl⟩ dev).1 =
        Except.error
          ⟨(dev.CreateComputePipelineState
              (ComputePipelineStateBuilder.assembleDesc
                ⟨rs, none, nm, cache, fl⟩)).1⟩ ↔
      ¬(dev.CreateComputePipelineState
          (ComputePipelineStateBuilder.assembleDesc
            ⟨rs, none, nm, cache, fl⟩)).1 = 0) := by
  refine ⟨rfl, rfl, rfl, ?_⟩
  by_cases h : (dev.CreateComputePipelineState
      (ComputePipelineStateBuilder.assembleDesc ⟨rs, none, nm, cache, fl⟩)).1
      = 0 <;>
    simp [ComputePipelineStateBuilder.build, WinError.from_hresult_or_ok, h]

/-- C9 counterexample: the bitflags-generated public interface of
ComparisonFunc constructs a value that is none of the eight named constants:
the bitwise union of NEVER and ALWAYS has bits 9, and from_bits 9 accepts it
as well, so the enumeration is not closed. -/
theorem comparisonFunc_not_closed :
    ComparisonFunc.from_bits 9 =
      some (ComparisonFunc.bitor ComparisonFunc.NEVER
        ComparisonFunc.ALWAYS) ∧
    ComparisonFunc.bitor ComparisonFunc.NEVER ComparisonFunc.ALWAYS ≠
      ComparisonFunc.NEVER ∧
    ComparisonFunc.bitor ComparisonFunc.NEVER ComparisonFunc.ALWAYS ≠
      ComparisonFunc.LESS ∧
    ComparisonFunc.bitor ComparisonFunc.NEVER ComparisonFunc.ALWAYS ≠
      ComparisonFunc.EQUAL ∧
    ComparisonFunc.bitor ComparisonFunc.NEVER ComparisonFunc.ALWAYS ≠
      ComparisonFunc.LESS_EQUAL ∧
    ComparisonFunc.bitor ComparisonFunc.NEVER ComparisonFunc.ALWAYS ≠
      ComparisonFunc.GREATER ∧
    ComparisonFunc.bitor ComparisonFunc.NEVER ComparisonFunc.ALWAYS ≠
      ComparisonFunc.NOT_EQUAL ∧
    ComparisonFunc.bitor ComparisonFunc.NEVER ComparisonFunc.ALWAYS ≠
      ComparisonFunc.GREATER_EQUAL ∧
    ComparisonFunc.bitor ComparisonFunc.NEVER ComparisonFunc.ALWAYS ≠
      ComparisonFunc.ALWAYS := by
  decide

/-- C9 amended: ComparisonFunc is a bitflags u32 bit set whose eight named
constants carry the native values 1 through 8; its public interface accepts
exactly the bit patterns contained in the mask 15, so values other than the
eight constants (such as NEVER union ALWAYS, bits 9) are constructible and
the type is not a closed eight-value enumeration. -/
theorem comparisonFunc_bitset_values :
    ComparisonFunc.NEVER.bits = 1 ∧
    ComparisonFunc.LESS.bits = 2 ∧
    ComparisonFunc.EQUAL.bits = 3 ∧
    ComparisonFunc.LESS_EQUAL.bits = 4 ∧
    ComparisonFunc.GREATER.bits = 5 ∧
    ComparisonFunc.NOT_EQUAL.bits = 6 ∧
    ComparisonFunc.GREATER_EQUAL.bits = 7 ∧
    ComparisonFunc.ALWAYS.bits = 8 ∧
    (∀ n : Nat, (ComparisonFunc.from_bits n).isSome ↔ n &&& 15 = n) ∧
    ComparisonFunc.bitor ComparisonFunc.NEVER ComparisonFunc.ALWAYS =
      ⟨9⟩ ∧
    (⟨9⟩ : ComparisonFunc) ≠ ComparisonFunc.NEVER ∧
    (⟨9⟩ : ComparisonFunc) ≠ ComparisonFunc.LESS ∧
    (⟨9⟩ : ComparisonFunc) ≠ ComparisonFunc.EQUAL ∧
    (⟨9⟩ : ComparisonFunc) ≠ ComparisonFunc.LESS_EQUAL ∧
    (⟨9⟩ : ComparisonFunc) ≠ ComparisonFunc.GREATER ∧
    (⟨9⟩ : ComparisonFunc) ≠ ComparisonFunc.NOT_EQUAL ∧
    (⟨9⟩ : ComparisonFunc) ≠ ComparisonFunc.GREATER_EQUAL ∧
    (⟨9⟩ : ComparisonFunc) ≠ ComparisonFunc.ALWAYS := by
  refine ⟨rfl, rfl, rfl, rfl, rfl, rfl, rfl, rfl, fun n => ?_,
    by decide, by decide, by decide, by decide, by decide, by decide,
    by decide, by decide, by decide⟩
  by_cases h : n &&& 15 = n <;> simp [ComparisonFunc.from_bits, h]

/-- Helper: the conditional field write is determined by the Option.map f
view of the optional collaborator. -/
theorem option_view_match_congr {α β : Type} (f : α → β) (z : β)
    {a b : Option α} (h : a.map f = b.map f) :
    optionView f z a = optionView f z b := by
  cases a with
  | none =>
    cases b with
    | none => rfl
    | some v => simp at h
  | some u =>
    cases b with
    | none => simp at h
    | some v =>
      simp only [Option.map_some'] at h
      exact Option.some.inj h

/-- C10: descriptor assembly is deterministic: two graphics (resp. compute)
builders whose configuration fields are equal and whose root-signature,
shader and cache collaborators report equal views assemble field-for-field
identical flat descriptors. -/
theorem descriptor_assembly_deterministic
    (b1 b2 : GraphicsPipelineStateBuilder)
    (c1 c2 : ComputePipelineStateBuilder) :
    (b1.rootsig.ptr = b2.rootsig.ptr →
     b1.vs.map ShaderBytecode.to_shader_bytecode =
       b2.vs.map ShaderBytecode.to_shader_bytecode →
     b1.ps.map ShaderBytecode.to_shader_bytecode =
       b2.ps.map ShaderBytecode.to_shader_bytecode →
     b1.ds.map ShaderBytecode.to_shader_bytecode =
       b2.ds.map ShaderBytecode.to_shader_bytecode →
     b1.hs.map ShaderBytecode.to_shader_bytecode =
       b2.hs.map ShaderBytecode.to_shader_bytecode →
     b1.gs.map ShaderBytecode.to_shader_bytecode =
       b2.gs.map ShaderBytecode.to_shader_bytecode →
     b1.stream_output = b2.stream_output →
     b1.blend_state = b2.blend_state →
     b1.sample_mask = b2.sample_mask →
     b1.rasterizer_state = b2.rasterizer_state →
     b1.depth_stencil_state = b2.depth_stencil_state →
     b1.input_layout = b2.input_layout →
     b1.strip_cut_value = b2.strip_cut_value →
     b1.primitive_topology_type = b2.primitive_topology_type →
     b1.num_render_targets = b2.num_render_targets →
     b1.rtv_formats = b2.rtv_formats →
     b1.dsv_format = b2.dsv_format →
     b1.sample_desc = b2.sample_desc →
     b1.node_mask = b2.node_mask →
     b1.cache.map GraphicsPipelineStateCache.to_ffi_cache =
       b2.cache.map GraphicsPipelineStateCache.to_ffi_cache →
     b1.flags = b2.flags →
     b1.assembleDesc = b2.assembleDesc) ∧
    (c1.rootsig.ptr = c2.rootsig.ptr →
     c1.cs.map ShaderBytecode.to_shader_bytecode =
       c2.cs.map ShaderBytecode.to_shader_bytecode →
     c1.node_mask = c2.node_mask →
     c1.cache.map ComputePipelineStateCache.to_ffi_cache =
       c2.cache.map ComputePipelineStateCache.to_ffi_cache →
     c1.flags = c2.flags →
     c1.assembleDesc = c2.assembleDesc) := by
  constructor
  · intro h1 h2 h3 h4 h5 h6 h7 h8 h9 h10 h11 h12 h13 h14 h15 h16 h17 h18
      h19 h20 h21
    simp only [GraphicsPipelineStateBuilder.assembleDesc, SoDescBuilder.build,
      D3D12_GRAPHICS_PIPELINE_STATE_DESC.mk.injEq]
    exact ⟨h1, option_view_match_congr _ _ h2, option_view_match_congr _ _ h3,
      option_view_match_congr _ _ h4, option_view_match_congr _ _ h5,
      option_view_match_congr _ _ h6, by rw [h7], by rw [h8], h9,
      by rw [h10], by rw [h11], by rw [h12], by rw [h13], by rw [h14], h15,
      h16, h17, h18, h19, option_view_match_congr _ _ h20, by rw [h21]⟩
  · intro h1 h2 h3 h4 h5
    simp only [ComputePipelineStateBuilder.assembleDesc,
      D3D12_COMPUTE_PIPELINE_STATE_DESC.mk.injEq]
    exact ⟨h1, option_view_match_congr _ _ h2, h3,
      option_view_match_congr _ _ h4, by rw [h5]⟩

/-- Witness for C10: two concretely assembled builders with equal
configuration and equal collaborator views assemble equal descriptors. -/
theorem descriptor_assembly_deterministic_witness :
    ({ GraphicsPipelineStateBuilder.new ⟨3⟩ with
        vs := some ⟨11, 4⟩ } :
      GraphicsPipelineStateBuilder).assembleDesc =
      ({ GraphicsPipelineStateBuilder.new ⟨3⟩ with
          vs := some ⟨11, 4⟩, node_mask := 0 } :
        GraphicsPipelineStateBuilder).assembleDesc ∧
    (ComputePipelineStateBuilder.new ⟨3⟩).assembleDesc =
      ({ ComputePipelineStateBuilder.new ⟨3⟩ with
          flags := PipelineStateFlags.NONE } :
        ComputePipelineStateBuilder).assembleDesc :=
  ⟨(descriptor_assembly_deterministic
      { GraphicsPipelineStateBuilder.new ⟨3⟩ with vs := some ⟨11, 4⟩ }
      { GraphicsPipelineStateBuilder.new ⟨3⟩ with
          vs := some ⟨11, 4⟩, node_mask := 0 }
      (ComputePipelineStateBuilder.new ⟨3⟩)
      (ComputePipelineStateBuilder.new ⟨3⟩)).1
    rfl rfl rfl rfl rfl rfl rfl rfl rfl rfl rfl rfl rfl rfl rfl rfl rfl rfl
    rfl rfl rfl,
   (descriptor_assembly_deterministic
      { GraphicsPipelineStateBuilder.new ⟨3⟩ with vs := some ⟨11, 4⟩ }
      { GraphicsPipelineStateBuilder.new ⟨3⟩ with
          vs := some ⟨11, 4⟩, node_mask := 0 }
      (ComputePipelineStateBuilder.new ⟨3⟩)
      { ComputePipelineStateBuilder.new ⟨3⟩ with
          flags := PipelineStateFlags.NONE }).2
    rfl rfl rfl rfl rfl⟩
